import Mathlib

set_option linter.unusedVariables false

/-!
Shallow embedding of `src/app/repository/__init__.py` (luisgdev/devtest).

The repository mediates between an HTTP layer and one relational table of
elevator demands.  We model the database session as explicit state: a list
of persisted rows together with the counter the storage engine uses to
generate fresh identifiers.  Each repository method becomes a function from
session state (and its arguments) to a new session state and a result.

For the error-handling claims the session primitives
(query / add / delete / commit / refresh) are additionally modelled as
fallible operations returning `Except`, and the repository methods as their
monadic composition, mirroring the fact that the Python code installs no
exception handler of its own.
-/

/-- A persisted Demand Record: `id` is generated by storage,
`origin` and `destination` are the mutable payload
(the `ElevatorDemand` model). -/
structure ElevatorDemand where
  id : Nat
  origin : String
  destination : String
deriving DecidableEq, Repr

/-- Transient input value object: `origin` / `destination`, no identifier
(the `ElevatorDemandInput` schema). -/
structure ElevatorDemandInput where
  origin : String
  destination : String
deriving DecidableEq, Repr

/-- Transient output value object: a read projection of a Demand Record
(the `ElevatorDemandOutput` schema). -/
structure ElevatorDemandOutput where
  id : Nat
  origin : String
  destination : String
deriving DecidableEq, Repr

/-- The state behind the SQLAlchemy session: the stored rows of the one
table, and the next identifier the engine will generate on insert. -/
structure SessionState where
  rows : List ElevatorDemand
  nextId : Nat
deriving DecidableEq, Repr

/-- `ElevatorDemand(**item.model_dump())` followed by the engine assigning
the generated primary key on flush. -/
def demandOfInput (s : SessionState) (item : ElevatorDemandInput) : ElevatorDemand :=
  { id := s.nextId, origin := item.origin, destination := item.destination }

/-- The field-by-field projection performed by
`ElevatorDemandOutput(id=..., origin=..., destination=...)` and by the
attribute spread `ElevatorDemandOutput(**item.__dict__)`. -/
def outputOfDemand (d : ElevatorDemand) : ElevatorDemandOutput :=
  { id := d.id, origin := d.origin, destination := d.destination }

namespace ElevatorDemandRepository

/-- `self.session.query(ElevatorDemand).all()`. -/
def queryAll (s : SessionState) : List ElevatorDemand :=
  s.rows

/-- `create`: build the record from the input, `add`, `commit`, `refresh`,
and return the projection of the persisted record. -/
def create (s : SessionState) (item : ElevatorDemandInput) :
    SessionState × ElevatorDemandOutput :=
  let demand := demandOfInput s item
  let s1 : SessionState := { rows := s.rows ++ [demand], nextId := s.nextId + 1 }
  (s1, outputOfDemand demand)

/-- `get_all`: query all rows and project each to an output. -/
def get_all (s : SessionState) : List ElevatorDemandOutput :=
  (queryAll s).map outputOfDemand

/-- `get_item`: `query(ElevatorDemand).filter_by(id=item_id).first()` —
filter the rows by identifier and take the first, `none` when no row
matches. -/
def get_item (s : SessionState) (item_id : Nat) : Option ElevatorDemand :=
  (s.rows.filter (fun r => r.id == item_id)).head?

/-- `update`: overwrite `origin` and `destination` of the live record,
commit, refresh, and return the projection of the reloaded record
(`none` models the undefined behaviour when the record is not live). -/
def update (s : SessionState) (item : ElevatorDemand)
    (new_data : ElevatorDemandInput) :
    SessionState × Option ElevatorDemandOutput :=
  let rows := s.rows.map (fun r =>
    if r.id = item.id then
      { r with origin := new_data.origin, destination := new_data.destination }
    else r)
  let s1 : SessionState := { s with rows := rows }
  (s1, (get_item s1 item.id).map outputOfDemand)

/-- `delete`: read `id_ = item.id`, delete the row, commit, then return
whether a row with the remembered identifier is still found. -/
def delete (s : SessionState) (item : ElevatorDemand) : SessionState × Bool :=
  let id_ := item.id
  let s1 : SessionState := { s with rows := s.rows.filter (fun r => !(r.id == id_)) }
  (s1, (get_item s1 id_).isSome)

/-- Iterated `create`, used to state the size property of `get_all` after
creating N records. -/
def createMany (s : SessionState) (inputs : List ElevatorDemandInput) :
    SessionState × List ElevatorDemandOutput :=
  match inputs with
  | [] => (s, [])
  | i :: rest =>
    let p := create s i
    let q := createMany p.1 rest
    (q.1, p.2 :: q.2)

end ElevatorDemandRepository

/-- The Python exceptions the modelled code can raise. -/
inductive PyError where
  | notImplementedError
deriving DecidableEq, Repr

namespace AbstractRepository

/-- Abstract `create`: `raise NotImplementedError`. -/
def create (item : ElevatorDemandInput) : Except PyError ElevatorDemandOutput :=
  .error .notImplementedError

/-- Abstract `get_all`: `raise NotImplementedError`. -/
def get_all : Except PyError (List ElevatorDemandOutput) :=
  .error .notImplementedError

/-- Abstract `get_item`: `raise NotImplementedError`. -/
def get_item (item_id : Nat) : Except PyError (Option ElevatorDemand) :=
  .error .notImplementedError

/-- Abstract `update`: `raise NotImplementedError`. -/
def update (item : ElevatorDemand) (new_data : ElevatorDemandInput) :
    Except PyError ElevatorDemandOutput :=
  .error .notImplementedError

/-- Abstract `delete`: `raise NotImplementedError`. -/
def delete (item : ElevatorDemand) : Except PyError Bool :=
  .error .notImplementedError

end AbstractRepository

/-!
Fallible session model.  Each primitive the repository invokes on the
session may raise: it returns `Except ε _`.  The repository methods are
their monadic composition with no handler, exactly as in the Python code,
which contains no `try`/`except`.
-/

/-- The session primitives used by the repository, each allowed to fail
with an error of type `ε`. -/
structure SessionOps (ε : Type) where
  queryAllOp : SessionState → Except ε (List ElevatorDemand)
  queryFirstOp : SessionState → Nat → Except ε (Option ElevatorDemand)
  addOp : SessionState → ElevatorDemand → Except ε SessionState
  deleteOp : SessionState → Nat → Except ε SessionState
  commitOp : SessionState → Except ε SessionState
  refreshOp : SessionState → Nat → Except ε (Option ElevatorDemand)

namespace ElevatorDemandRepository

/-- The row overwrite performed by `update` before it commits:
`item.origin = new_data.origin; item.destination = new_data.destination`
on the live row. -/
def overwrite (s : SessionState) (item : ElevatorDemand)
    (new_data : ElevatorDemandInput) : SessionState :=
  { s with rows := s.rows.map (fun r =>
      if r.id = item.id then
        { r with origin := new_data.origin, destination := new_data.destination }
      else r) }

/-- `create` over the fallible session: add, commit, refresh, project. -/
def createE {ε : Type} (ops : SessionOps ε) (s : SessionState)
    (item : ElevatorDemandInput) :
    Except ε (SessionState × Option ElevatorDemandOutput) := do
  let demand := demandOfInput s item
  let s1 ← ops.addOp s demand
  let s2 ← ops.commitOp s1
  let refreshed ← ops.refreshOp s2 demand.id
  pure (s2, refreshed.map outputOfDemand)

/-- `get_all` over the fallible session: query all, project each row. -/
def get_allE {ε : Type} (ops : SessionOps ε) (s : SessionState) :
    Except ε (List ElevatorDemandOutput) := do
  let items ← ops.queryAllOp s
  pure (items.map outputOfDemand)

/-- `get_item` over the fallible session: filter by id, first. -/
def get_itemE {ε : Type} (ops : SessionOps ε) (s : SessionState)
    (item_id : Nat) : Except ε (Option ElevatorDemand) :=
  ops.queryFirstOp s item_id

/-- `update` over the fallible session: overwrite the fields, commit,
refresh, project. -/
def updateE {ε : Type} (ops : SessionOps ε) (s : SessionState)
    (item : ElevatorDemand) (new_data : ElevatorDemandInput) :
    Except ε (SessionState × Option ElevatorDemandOutput) := do
  let s1 := overwrite s item new_data
  let s2 ← ops.commitOp s1
  let refreshed ← ops.refreshOp s2 item.id
  pure (s2, refreshed.map outputOfDemand)

/-- `delete` over the fallible session: read the id, delete, commit,
re-query by the remembered id. -/
def deleteE {ε : Type} (ops : SessionOps ε) (s : SessionState)
    (item : ElevatorDemand) : Except ε (SessionState × Bool) := do
  let id_ := item.id
  let s1 ← ops.deleteOp s id_
  let s2 ← ops.commitOp s1
  let found ← ops.queryFirstOp s2 id_
  pure (s2, found.isSome)

end ElevatorDemandRepository

/-!
Helper lemmas and sample data shared by the claim theorems.
-/

/-- Concrete sample row used by witnesses. -/
def sampleDemand : ElevatorDemand := { id := 0, origin := "A", destination := "B" }

/-- Concrete sample session state used by witnesses: one stored row,
next generated identifier 1. -/
def sampleState : SessionState := { rows := [sampleDemand], nextId := 1 }

/-- Taking the head of a filtered list is searching for the first match. -/
theorem head?_filter_eq_find? {α : Type} (p : α → Bool) (xs : List α) :
    (xs.filter p).head? = xs.find? p := by
  induction xs with
  | nil => rfl
  | cons x xs ih =>
    by_cases h : p x
    · simp [List.filter_cons, h]
    · simp [List.filter_cons, h, ih]

/-- `get_item` is the first-match search over the stored rows. -/
theorem get_item_eq_find? (s : SessionState) (item_id : Nat) :
    ElevatorDemandRepository.get_item s item_id =
      s.rows.find? (fun r => r.id == item_id) :=
  head?_filter_eq_find? _ _

/-- After `delete s item`, no row with `item.id` can be found. -/
theorem get_item_after_delete (s : SessionState) (item : ElevatorDemand) :
    ElevatorDemandRepository.get_item
      (ElevatorDemandRepository.delete s item).1 item.id = none := by
  simp [ElevatorDemandRepository.get_item, ElevatorDemandRepository.delete,
    List.filter_filter]

/-- C4: for every live record, after `delete(record)` completes,
`get_item(record.id)` yields an absent result.  (Proved without even
assuming liveness: the deletion removes every row carrying that
identifier.) -/
theorem delete_then_get_item_absent (s : SessionState) (item : ElevatorDemand) :
    ElevatorDemandRepository.get_item
      (ElevatorDemandRepository.delete s item).1 item.id = none :=
  get_item_after_delete s item

/-- C5: `get_item` returns the first stored record whose id matches the
given identifier, and an absent result (not an exception — it is a total
function into `Option`) exactly when no stored record matches. -/
theorem get_item_first_match_or_absent (s : SessionState) (item_id : Nat) :
    ElevatorDemandRepository.get_item s item_id =
      s.rows.find? (fun r => r.id == item_id) ∧
    (ElevatorDemandRepository.get_item s item_id = none ↔
      ∀ r ∈ s.rows, r.id ≠ item_id) := by
  refine ⟨get_item_eq_find? s item_id, ?_⟩
  rw [get_item_eq_find?]
  simp [List.find?_eq_none]

/-- C5 witness: evaluated on the sample state and a missing identifier. -/
theorem get_item_first_match_or_absent_witness :
    (ElevatorDemandRepository.get_item sampleState 5 =
      sampleState.rows.find? (fun r => r.id == 5) ∧
    (ElevatorDemandRepository.get_item sampleState 5 = none ↔
      ∀ r ∈ sampleState.rows, r.id ≠ 5)) :=
  get_item_first_match_or_absent sampleState 5

/-- C1: for every live record, `delete` returns exactly the result of
re-querying the pre-deletion identifier after the commit, and since the
deletion removes the row, a successful deletion returns `false`. -/
theorem delete_returns_requery_and_false (s : SessionState)
    (item : ElevatorDemand) (hlive : item ∈ s.rows) :
    (ElevatorDemandRepository.delete s item).2 =
      (ElevatorDemandRepository.get_item
        (ElevatorDemandRepository.delete s item).1 item.id).isSome ∧
    (ElevatorDemandRepository.delete s item).2 = false := by
  refine ⟨rfl, ?_⟩
  have h := get_item_after_delete s item
  simp [ElevatorDemandRepository.delete] at h ⊢
  simp [ElevatorDemandRepository.delete, h]

/-- C1 witness: deleting the sample row from the sample state. -/
theorem delete_returns_requery_and_false_witness :
    (sampleDemand ∈ sampleState.rows ∧
    (ElevatorDemandRepository.delete sampleState sampleDemand).2 =
      (ElevatorDemandRepository.get_item
        (ElevatorDemandRepository.delete sampleState sampleDemand).1
        sampleDemand.id).isSome ∧
    (ElevatorDemandRepository.delete sampleState sampleDemand).2 = false) :=
  ⟨by decide, delete_returns_requery_and_false sampleState sampleDemand (by decide)⟩

/-- C10: `delete`'s behaviour, including the post-deletion existence
check, is computed from the identifier read from the record before the
deletion: two records carrying the same identifier are deleted
identically, and the returned Boolean is exactly the re-query of that
pre-deletion identifier. -/
theorem delete_uses_preread_id (s : SessionState)
    (item1 item2 : ElevatorDemand) (hid : item1.id = item2.id) :
    ElevatorDemandRepository.delete s item1 =
      ElevatorDemandRepository.delete s item2 ∧
    (ElevatorDemandRepository.delete s item1).2 =
      (ElevatorDemandRepository.get_item
        (ElevatorDemandRepository.delete s item1).1 item1.id).isSome := by
  constructor
  · simp [ElevatorDemandRepository.delete, hid]
  · rfl

/-- C10 witness: two distinct records sharing identifier 0. -/
theorem delete_uses_preread_id_witness :
    ((ElevatorDemand.mk 0 "A" "B").id = (ElevatorDemand.mk 0 "C" "D").id ∧
    ElevatorDemandRepository.delete sampleState (ElevatorDemand.mk 0 "A" "B") =
      ElevatorDemandRepository.delete sampleState (ElevatorDemand.mk 0 "C" "D") ∧
    (ElevatorDemandRepository.delete sampleState (ElevatorDemand.mk 0 "A" "B")).2 =
      (ElevatorDemandRepository.get_item
        (ElevatorDemandRepository.delete sampleState (ElevatorDemand.mk 0 "A" "B")).1
        (ElevatorDemand.mk 0 "A" "B").id).isSome) :=
  ⟨rfl, delete_uses_preread_id sampleState _ _ rfl⟩

/-- C2: for every valid input, `create` followed by `get_item` on the id
of the returned output yields a record whose origin and destination equal
the input's (assuming the engine-generated identifier is fresh, as a
primary key is). -/
theorem create_then_get_item (s : SessionState) (item : ElevatorDemandInput)
    (hfresh : ∀ r ∈ s.rows, r.id ≠ s.nextId) :
    ∃ d : ElevatorDemand,
      ElevatorDemandRepository.get_item
        (ElevatorDemandRepository.create s item).1
        (ElevatorDemandRepository.create s item).2.id = some d ∧
      d.origin = item.origin ∧ d.destination = item.destination := by
  refine ⟨demandOfInput s item, ?_, rfl, rfl⟩
  have hnone : s.rows.find? (fun r => r.id == s.nextId) = none := by
    rw [List.find?_eq_none]
    intro r hr
    simpa using hfresh r hr
  rw [get_item_eq_find?]
  simp [ElevatorDemandRepository.create, List.find?_append, hnone,
    demandOfInput, outputOfDemand]

/-- C2 witness: creating an input on the sample state. -/
theorem create_then_get_item_witness :
    ((∀ r ∈ sampleState.rows, r.id ≠ sampleState.nextId) ∧
    ∃ d : ElevatorDemand,
      ElevatorDemandRepository.get_item
        (ElevatorDemandRepository.create sampleState ⟨"C", "D"⟩).1
        (ElevatorDemandRepository.create sampleState ⟨"C", "D"⟩).2.id = some d ∧
      d.origin = "C" ∧ d.destination = "D") :=
  ⟨by decide, create_then_get_item sampleState ⟨"C", "D"⟩ (by decide)⟩

/-- C3: for every live record and input, `update` overwrites only the
record's origin and destination and preserves its identifier: the
subsequent `get_item(record.id)` finds a record with the unchanged id and
the new fields, and `update` returns its projection. -/
theorem update_then_get_item (s : SessionState) (item : ElevatorDemand)
    (new_data : ElevatorDemandInput) (hlive : item ∈ s.rows) :
    ∃ d : ElevatorDemand,
      ElevatorDemandRepository.get_item
        (ElevatorDemandRepository.update s item new_data).1 item.id = some d ∧
      d.id = item.id ∧ d.origin = new_data.origin ∧
      d.destination = new_data.destination ∧
      (ElevatorDemandRepository.update s item new_data).2 =
        some (outputOfDemand d) := by
  classical
  set f : ElevatorDemand → ElevatorDemand := fun r =>
    if r.id = item.id then
      { r with origin := new_data.origin, destination := new_data.destination }
    else r with hf
  have hfid : ∀ r : ElevatorDemand, (f r).id = r.id := by
    intro r
    by_cases h : r.id = item.id <;> simp [hf, h]
  have hrows : (ElevatorDemandRepository.update s item new_data).1.rows
      = s.rows.map f := rfl
  have hfind : ((ElevatorDemandRepository.update s item new_data).1.rows.find?
      (fun r => r.id == item.id))
      = (s.rows.find? (fun r => r.id == item.id)).map f := by
    rw [hrows, List.find?_map]
    have hpred : ((fun r : ElevatorDemand => r.id == item.id) ∘ f)
        = fun r : ElevatorDemand => r.id == item.id := by
      funext r
      simp [Function.comp, hfid r]
    rw [hpred]
  have hsome : ∃ r, s.rows.find? (fun r => r.id == item.id) = some r := by
    have : (s.rows.find? (fun r => r.id == item.id)).isSome := by
      rw [List.find?_isSome]
      exact ⟨item, hlive, by simp⟩
    exact Option.isSome_iff_exists.mp this
  obtain ⟨r, hr⟩ := hsome
  have hrid : r.id = item.id := by
    have := List.find?_some hr
    simpa using this
  refine ⟨f r, ?_, ?_, ?_, ?_, ?_⟩
  · rw [get_item_eq_find?, hfind, hr]
    rfl
  · rw [hfid, hrid]
  · simp [hf, hrid]
  · simp [hf, hrid]
  · show (ElevatorDemandRepository.get_item
      (ElevatorDemandRepository.update s item new_data).1 item.id).map
        outputOfDemand = some (outputOfDemand (f r))
    rw [get_item_eq_find?, hfind, hr]
    rfl

/-- C3 witness: updating the sample row in the sample state. -/
theorem update_then_get_item_witness :
    (sampleDemand ∈ sampleState.rows ∧
    ∃ d : ElevatorDemand,
      ElevatorDemandRepository.get_item
        (ElevatorDemandRepository.update sampleState sampleDemand ⟨"C", "D"⟩).1
        sampleDemand.id = some d ∧
      d.id = sampleDemand.id ∧ d.origin = "C" ∧ d.destination = "D" ∧
      (ElevatorDemandRepository.update sampleState sampleDemand ⟨"C", "D"⟩).2 =
        some (outputOfDemand d)) :=
  ⟨by decide, update_then_get_item sampleState sampleDemand ⟨"C", "D"⟩ (by decide)⟩

/-- `createMany` grows the stored rows by exactly the number of inputs. -/
theorem createMany_rows_length (s : SessionState)
    (inputs : List ElevatorDemandInput) :
    (ElevatorDemandRepository.createMany s inputs).1.rows.length
      = s.rows.length + inputs.length := by
  induction inputs generalizing s with
  | nil => simp [ElevatorDemandRepository.createMany]
  | cons i rest ih =>
    have h1 : (ElevatorDemandRepository.createMany s (i :: rest)).1
        = (ElevatorDemandRepository.createMany
            (ElevatorDemandRepository.create s i).1 rest).1 := rfl
    have h2 : (ElevatorDemandRepository.create s i).1.rows
        = s.rows ++ [demandOfInput s i] := rfl
    rw [h1, ih, h2]
    simp only [List.length_append, List.length_cons, List.length_nil]
    omega

/-- Rows already stored survive `createMany`: `create` only appends. -/
theorem mem_rows_createMany (s : SessionState)
    (inputs : List ElevatorDemandInput) (r : ElevatorDemand)
    (h : r ∈ s.rows) :
    r ∈ (ElevatorDemandRepository.createMany s inputs).1.rows := by
  induction inputs generalizing s with
  | nil => simpa [ElevatorDemandRepository.createMany] using h
  | cons i rest ih =>
    exact ih (ElevatorDemandRepository.create s i).1
      (by simp [ElevatorDemandRepository.create, h])

/-- Every output returned by `createMany` has a stored row with its id. -/
theorem createMany_output_has_row (s : SessionState)
    (inputs : List ElevatorDemandInput) (out : ElevatorDemandOutput)
    (h : out ∈ (ElevatorDemandRepository.createMany s inputs).2) :
    ∃ r ∈ (ElevatorDemandRepository.createMany s inputs).1.rows,
      r.id = out.id := by
  induction inputs generalizing s with
  | nil => simp [ElevatorDemandRepository.createMany] at h
  | cons i rest ih =>
    simp only [ElevatorDemandRepository.createMany, List.mem_cons] at h
    rcases h with h | h
    · refine ⟨demandOfInput s i, ?_, ?_⟩
      · exact mem_rows_createMany _ rest _
          (by simp [ElevatorDemandRepository.create])
      · subst h
        rfl
    · obtain ⟨r, hr, hid⟩ := ih (ElevatorDemandRepository.create s i).1 h
      exact ⟨r, by simpa [ElevatorDemandRepository.createMany] using hr, hid⟩

/-- C6: `get_all` returns one output per stored record, so after creating
N records its size is the previous size plus N, and every created record
is present in it by identifier. -/
theorem get_all_after_createMany (s : SessionState)
    (inputs : List ElevatorDemandInput) :
    (ElevatorDemandRepository.get_all
        (ElevatorDemandRepository.createMany s inputs).1).length =
      (ElevatorDemandRepository.get_all s).length + inputs.length ∧
    ∀ out ∈ (ElevatorDemandRepository.createMany s inputs).2,
      ∃ o ∈ ElevatorDemandRepository.get_all
          (ElevatorDemandRepository.createMany s inputs).1,
        o.id = out.id := by
  constructor
  · simp [ElevatorDemandRepository.get_all, ElevatorDemandRepository.queryAll,
      createMany_rows_length]
  · intro out hout
    obtain ⟨r, hr, hid⟩ := createMany_output_has_row s inputs out hout
    refine ⟨outputOfDemand r, ?_, hid⟩
    simp [ElevatorDemandRepository.get_all, ElevatorDemandRepository.queryAll]
    exact ⟨r, hr, rfl⟩

/-- C6 witness: creating one record on the sample state. -/
theorem get_all_after_createMany_witness :
    ((ElevatorDemandRepository.get_all
        (ElevatorDemandRepository.createMany sampleState
          [⟨"C", "D"⟩]).1).length =
      (ElevatorDemandRepository.get_all sampleState).length + 1 ∧
    ∃ o ∈ ElevatorDemandRepository.get_all
        (ElevatorDemandRepository.createMany sampleState [⟨"C", "D"⟩]).1,
      o.id = (ElevatorDemandOutput.mk 1 "C" "D").id) :=
  ⟨(get_all_after_createMany sampleState [⟨"C", "D"⟩]).1,
   (get_all_after_createMany sampleState [⟨"C", "D"⟩]).2
     (ElevatorDemandOutput.mk 1 "C" "D") (by decide)⟩

/-- C7: calling any of the five methods on the Abstract Repository itself
fails with the NotImplemented error, for every argument. -/
theorem abstract_repository_raises (item : ElevatorDemandInput)
    (item_id : Nat) (it : ElevatorDemand) (new_data : ElevatorDemandInput) :
    AbstractRepository.create item = .error .notImplementedError ∧
    AbstractRepository.get_all = .error .notImplementedError ∧
    AbstractRepository.get_item item_id = .error .notImplementedError ∧
    AbstractRepository.update it new_data = .error .notImplementedError ∧
    AbstractRepository.delete it = .error .notImplementedError :=
  ⟨rfl, rfl, rfl, rfl, rfl⟩

/-- C9: `get_all` is the element-wise projection of the storage query
result: one output per queried row, same order, carrying that row's id,
origin and destination. -/
theorem get_all_elementwise (s : SessionState) :
    (ElevatorDemandRepository.get_all s).length =
      (ElevatorDemandRepository.queryAll s).length ∧
    ∀ i : Nat, (ElevatorDemandRepository.get_all s)[i]? =
      ((ElevatorDemandRepository.queryAll s)[i]?).map
        (fun r => ({ id := r.id, origin := r.origin,
                     destination := r.destination } : ElevatorDemandOutput)) := by
  constructor
  · simp [ElevatorDemandRepository.get_all]
  · intro i
    simp only [ElevatorDemandRepository.get_all, List.getElem?_map]
    cases h : (ElevatorDemandRepository.queryAll s)[i]? <;>
      simp [outputOfDemand]

/-- C8: every repository operation is the raw composition of the session
primitives it invokes: whichever primitive raises first, its error is
returned unchanged — no translation, wrapping, retry, or recovery, at any
stage of any of the five operations. -/
theorem session_errors_propagate {ε : Type} (ops : SessionOps ε)
    (s s1 s2 : SessionState) (e : ε) :
    (∀ item, ops.addOp s (demandOfInput s item) = .error e →
      ElevatorDemandRepository.createE ops s item = .error e) ∧
    (∀ item, ops.addOp s (demandOfInput s item) = .ok s1 →
      ops.commitOp s1 = .error e →
      ElevatorDemandRepository.createE ops s item = .error e) ∧
    (∀ item, ops.addOp s (demandOfInput s item) = .ok s1 →
      ops.commitOp s1 = .ok s2 →
      ops.refreshOp s2 s.nextId = .error e →
      ElevatorDemandRepository.createE ops s item = .error e) ∧
    (ops.queryAllOp s = .error e →
      ElevatorDemandRepository.get_allE ops s = .error e) ∧
    (∀ i, ops.queryFirstOp s i = .error e →
      ElevatorDemandRepository.get_itemE ops s i = .error e) ∧
    (∀ item new_data,
      ops.commitOp (ElevatorDemandRepository.overwrite s item new_data) =
        .error e →
      ElevatorDemandRepository.updateE ops s item new_data = .error e) ∧
    (∀ item new_data,
      ops.commitOp (ElevatorDemandRepository.overwrite s item new_data) =
        .ok s2 →
      ops.refreshOp s2 item.id = .error e →
      ElevatorDemandRepository.updateE ops s item new_data = .error e) ∧
    (∀ item, ops.deleteOp s item.id = .error e →
      ElevatorDemandRepository.deleteE ops s item = .error e) ∧
    (∀ item, ops.deleteOp s item.id = .ok s1 →
      ops.commitOp s1 = .error e →
      ElevatorDemandRepository.deleteE ops s item = .error e) ∧
    (∀ item, ops.deleteOp s item.id = .ok s1 →
      ops.commitOp s1 = .ok s2 →
      ops.queryFirstOp s2 item.id = .error e →
      ElevatorDemandRepository.deleteE ops s item = .error e) := by
  refine ⟨?_, ?_, ?_, ?_, ?_, ?_, ?_, ?_, ?_, ?_⟩ <;>
    intros <;>
    simp_all [ElevatorDemandRepository.createE,
      ElevatorDemandRepository.get_allE, ElevatorDemandRepository.get_itemE,
      ElevatorDemandRepository.updateE, ElevatorDemandRepository.deleteE,
      demandOfInput, bind, Except.bind]

/-- Session primitives that all succeed, acting on the modelled state. -/
def okOps : SessionOps Nat where
  queryAllOp s := .ok s.rows
  queryFirstOp s i := .ok ((s.rows.filter (fun r => r.id == i)).head?)
  addOp s d := .ok { s with rows := s.rows ++ [d] }
  deleteOp s i := .ok { s with rows := s.rows.filter (fun r => !(r.id == i)) }
  commitOp s := .ok s
  refreshOp s i := .ok ((s.rows.filter (fun r => r.id == i)).head?)

/-- Session primitives that all raise error 7. -/
def failAllOps : SessionOps Nat where
  queryAllOp _ := .error 7
  queryFirstOp _ _ := .error 7
  addOp _ _ := .error 7
  deleteOp _ _ := .error 7
  commitOp _ := .error 7
  refreshOp _ _ := .error 7

/-- Succeeding primitives except `commit`, which raises error 7. -/
def failCommitOps : SessionOps Nat :=
  { okOps with commitOp := fun _ => .error 7 }

/-- Succeeding primitives except `refresh`, which raises error 7. -/
def failRefreshOps : SessionOps Nat :=
  { okOps with refreshOp := fun _ _ => .error 7 }

/-- Succeeding primitives except the by-id query, which raises error 7. -/
def failQueryFirstOps : SessionOps Nat :=
  { okOps with queryFirstOp := fun _ _ => .error 7 }

/-- The sample state after `okOps.addOp` of the sample input's record. -/
def addedState : SessionState :=
  { sampleState with
    rows := sampleState.rows ++ [demandOfInput sampleState ⟨"C", "D"⟩] }

/-- The sample state after `okOps.deleteOp` of the sample row's id. -/
def deletedState : SessionState :=
  { sampleState with
    rows := sampleState.rows.filter (fun r => !(r.id == sampleDemand.id)) }

/-- C8 witness: each stage of each operation, evaluated with concrete
session primitives that fail at exactly that stage. -/
theorem session_errors_propagate_witness :
    ElevatorDemandRepository.createE failAllOps sampleState ⟨"C", "D"⟩ =
      .error 7 ∧
    ElevatorDemandRepository.createE failCommitOps sampleState ⟨"C", "D"⟩ =
      .error 7 ∧
    ElevatorDemandRepository.createE failRefreshOps sampleState ⟨"C", "D"⟩ =
      .error 7 ∧
    ElevatorDemandRepository.get_allE failAllOps sampleState = .error 7 ∧
    ElevatorDemandRepository.get_itemE failAllOps sampleState 0 = .error 7 ∧
    ElevatorDemandRepository.updateE failCommitOps sampleState sampleDemand
      ⟨"C", "D"⟩ = .error 7 ∧
    ElevatorDemandRepository.updateE failRefreshOps sampleState sampleDemand
      ⟨"C", "D"⟩ = .error 7 ∧
    ElevatorDemandRepository.deleteE failAllOps sampleState sampleDemand =
      .error 7 ∧
    ElevatorDemandRepository.deleteE failCommitOps sampleState sampleDemand =
      .error 7 ∧
    ElevatorDemandRepository.deleteE failQueryFirstOps sampleState
      sampleDemand = .error 7 :=
  ⟨(session_errors_propagate failAllOps sampleState sampleState sampleState
      7).1 ⟨"C", "D"⟩ rfl,
   (session_errors_propagate failCommitOps sampleState addedState sampleState
      7).2.1 ⟨"C", "D"⟩ rfl rfl,
   (session_errors_propagate failRefreshOps sampleState addedState addedState
      7).2.2.1 ⟨"C", "D"⟩ rfl rfl rfl,
   (session_errors_propagate failAllOps sampleState sampleState sampleState
      7).2.2.2.1 rfl,
   (session_errors_propagate failAllOps sampleState sampleState sampleState
      7).2.2.2.2.1 0 rfl,
   (session_errors_propagate failCommitOps sampleState sampleState sampleState
      7).2.2.2.2.2.1 sampleDemand ⟨"C", "D"⟩ rfl,
   (session_errors_propagate failRefreshOps sampleState sampleState
      (ElevatorDemandRepository.overwrite sampleState sampleDemand
        ⟨"C", "D"⟩) 7).2.2.2.2.2.2.1 sampleDemand ⟨"C", "D"⟩ rfl rfl,
   (session_errors_propagate failAllOps sampleState sampleState sampleState
      7).2.2.2.2.2.2.2.1 sampleDemand rfl,
   (session_errors_propagate failCommitOps sampleState deletedState
      sampleState 7).2.2.2.2.2.2.2.2.1 sampleDemand rfl rfl,
   (session_errors_propagate failQueryFirstOps sampleState deletedState
      deletedState 7).2.2.2.2.2.2.2.2.2 sampleDemand rfl rfl rfl⟩
